import Mathlib

/-!
Verification development for `gui.py` (Automated Download Cleanup Monitor).

The file shallow-embeds the core of the program: the statistics record,
the per-file processing pipeline `DownloadMonitorGUI.process_file`, the
batch scanner `DownloadMonitorGUI.process_folder`, the watcher callback
`FileHandler.on_created`, and the watch lifecycle
`start_monitoring` / `stop_monitoring`.

Modelling conventions:
  * The filesystem is an oracle `FS` of pure functions (`os.path.exists`,
    `os.path.isdir`, `os.listdir`); `listdir` is modelled as total
    (a successful directory inspection).
  * Each `subprocess.run` call is an oracle outcome `RunOutcome`: a normal
    completion with some exit code, or a raised `TimeoutExpired` /
    launch failure (`OSError`).  Raised outcomes propagate to the
    `try/except` in `process_file`.
  * GUI log lines are modelled as an inductive `LogMsg` carrying the data
    interpolated into the message; timestamps and presentation are elided.
  * Python string paths are Lean `String`s.  `os.path.splitext` is
    implemented following CPython `ntpath` (separators both `\` and `/`);
    `str.lower` is modelled by ASCII lowering, which agrees with Python on
    every extension literal the program compares against.
-/

namespace Gui

/-- Statistics counters, `self.stats` of `DownloadMonitorGUI.__init__`
(line 50): `{"files_processed": 0, "images_extracted": 0,
"duplicates_removed": 0, "space_saved": 0}`. -/
structure Stats where
  files_processed : Nat
  images_extracted : Nat
  duplicates_removed : Nat
  space_saved : Nat
  deriving Repr, DecidableEq

/-- Filesystem oracle: `os.path.exists`, `os.path.isdir`, `os.listdir`.
`isDir` is never consulted by the code under `src/`; it is carried so that
spec-side conditions about directories can be stated. -/
structure FS where
  existsPath : String → Bool
  isDir : String → Bool
  listdir : String → List String

/-- Outcome of one `subprocess.run(...)` call: normal completion with an
exit code, or a raised `TimeoutExpired`, or a raised launch failure. -/
inductive RunOutcome where
  | ok (exitCode : Int)
  | timeout
  | launchFailure
  deriving Repr, DecidableEq

/-- Oracles consumed while processing one file: the filesystem and the
outcomes of the (at most two) subprocess invocations. -/
structure Env where
  fs : FS
  runPngify : RunOutcome
  runDup : RunOutcome

/-- The messages `self.log(...)` can emit from the modelled code paths,
with the data interpolated into each message. -/
inductive LogMsg where
  | processing (name : String)
  | extracting
  | extracted (n : Nat)
  | removingDuplicates
  | duplicatesRemoved
  | completed (name : String)
  | errorProcessing (name : String)
  | newFileDetected (name : String)
  | foundFiles (n : Nat)
  | cleanupCompleted
  | manualCleanupStarted (folder : String)
  | startedMonitoring (folder : String)
  | monitoringStopped
  deriving Repr, DecidableEq

/-- `FileHandler.__init__`: `self.processed_files = set()`.  The Python set
of already-accepted paths, modelled as a list queried by membership. -/
structure HandlerState where
  processed_files : List String
  deriving Repr, DecidableEq

/-- Watcher status as shown by the status label: Idle or Monitoring Active. -/
inductive Status where
  | idle
  | active
  deriving Repr, DecidableEq

/-- The relevant state of `DownloadMonitorGUI`: the `monitoring` flag, the
status label, the observer subscription (watched folder, recursive flag),
the live `FileHandler` registry, the three configured paths, the stats,
the activity log, and the trace of subprocess invocations performed. -/
structure AppState where
  monitoring : Bool
  status : Status
  subscription : Option (String × Bool)
  handler : Option HandlerState
  watch_folder : String
  pngify_script : String
  duplicate_script : String
  stats : Stats
  log : List LogMsg
  calls : List String

/-- Index of the last character satisfying `p`, or `-1` (Python `str.rfind`
specialised to single characters). -/
def rfindAux (p : Char → Bool) : List Char → Nat → Int → Int
  | [], _, acc => acc
  | c :: rest, i, acc => rfindAux p rest (i + 1) (if p c then (i : Int) else acc)

/-- Python `s.rfind(c)` over the character list of `s`. -/
def rfind (l : List Char) (c : Char) : Int :=
  rfindAux (fun x => x == c) l 0 (-1)

/-- CPython `ntpath.splitext`: locate the last path separator (`\` or `/`)
and the last dot; the extension starts at the last dot provided it comes
after the separator and at least one character strictly between them is not
a dot (so dotfiles such as `.html` have no extension). -/
def splitextCore (l : List Char) : List Char × List Char :=
  let sepIndex : Int := max (rfind l '\\') (rfind l '/')
  let dotIndex : Int := rfind l '.'
  if sepIndex < dotIndex then
    let dotN := dotIndex.toNat
    let base := (l.take dotN).drop (sepIndex + 1).toNat
    if base.any (fun c => !(c == '.')) then (l.take dotN, l.drop dotN)
    else (l, [])
  else (l, [])

/-- `os.path.splitext(s)[0]`. -/
def splitextRoot (s : String) : String := ⟨(splitextCore s.data).1⟩

/-- `os.path.splitext(s)[1]`. -/
def splitextExt (s : String) : String := ⟨(splitextCore s.data).2⟩

/-- `os.path.basename`: the characters after the last path separator
(drive-letter handling elided; only used in log messages). -/
def basename (s : String) : String :=
  let l := s.data
  ⟨l.drop ((max (rfind l '\\') (rfind l '/')) + 1).toNat⟩

/-- Python `str.lower`, restricted to ASCII case mapping, over the
character list (kernel-computable). -/
def pyLower (s : String) : String := ⟨s.data.map Char.toLower⟩

/-- Python `str.endswith(suffix)`: codepoint suffix test
(kernel-computable). -/
def pyEndswith (s suf : String) : Bool := List.isSuffixOf suf.data s.data

/-- `os.path.join(folder, f)` (separator handling simplified to one slash;
the joined string is only consumed as an opaque path). -/
def joinPath (folder f : String) : String := folder ++ "/" ++ f

/-- Line 291: count of entries `f` of the output folder with
`f.endswith(('.png', '.jpg', '.gif'))`. -/
def countImages (entries : List String) : Nat :=
  (entries.filter (fun f =>
    pyEndswith f ".png" || pyEndswith f ".jpg" || pyEndswith f ".gif")).length

/-- Line 289: `output_folder = os.path.splitext(file_path)[0] + "_images"`. -/
def outputFolder (fp : String) : String := splitextRoot fp ++ "_images"

/-- Append one log line (`self.log(...)`). -/
def addLog (app : AppState) (m : LogMsg) : AppState :=
  { app with log := app.log ++ [m] }

/-- Record one `subprocess.run` invocation of the given script. -/
def addCall (app : AppState) (s : String) : AppState :=
  { app with calls := app.calls ++ [s] }

/-- The tail of `process_file`'s `try` block (lines 308-310):
`self.stats["files_processed"] += 1; self.update_stats(); self.log(Completed)`. -/
def finishFile (app : AppState) (b : String) : AppState :=
  addLog
    { app with stats :=
        { app.stats with files_processed := app.stats.files_processed + 1 } }
    (.completed b)

/-- `DownloadMonitorGUI.process_file` (lines 271-313).  The whole body is a
`try` whose `except` logs an error and returns; a raised subprocess outcome
jumps to that handler, skipping everything after the raise point. -/
def processFile (env : Env) (fp : String) (app : AppState) : AppState :=
  let b := basename fp
  let app1 := addLog app (.processing b)
  if env.fs.existsPath app.pngify_script then
    let app2 := addCall (addLog app1 .extracting) app.pngify_script
    match env.runPngify with
    | .ok _ =>
      let out := outputFolder fp
      if env.fs.existsPath out then
        let images := countImages (env.fs.listdir out)
        let app3 := addLog
          { app2 with stats := { app2.stats with
              images_extracted := app2.stats.images_extracted + images } }
          (.extracted images)
        if env.fs.existsPath app.duplicate_script then
          let app4 := addCall (addLog app3 .removingDuplicates) app.duplicate_script
          match env.runDup with
          | .ok _ =>
            let app5 := addLog app4 .duplicatesRemoved
            finishFile
              { app5 with stats := { app5.stats with
                  duplicates_removed := app5.stats.duplicates_removed + 1 } } b
          | _ => addLog app4 (.errorProcessing b)
        else finishFile app3 b
      else finishFile app2 b
    | _ => addLog app2 (.errorProcessing b)
  else finishFile app1 b

/-- Line 317: `web_extensions = ('.html', '.htm', '.css', '.js')`. -/
def web_extensions : List String := [".html", ".htm", ".css", ".js"]

/-- Line 318-319: the list comprehension filter
`f.lower().endswith(web_extensions)` over `os.listdir(folder)`. -/
def selectWeb (entries : List String) : List String :=
  entries.filter (fun f => web_extensions.any (fun e => pyEndswith (pyLower f) e))

/-- The `for file in files` loop of `process_folder` (lines 323-326):
before each file, `if not self.monitoring: break`.  `monStream i` is the
value the concurrent read of `self.monitoring` sees when the `i`-th file's
turn comes; `oracle i` the environment of that file's run. -/
def processFilesLoop (oracle : Nat → Env) (monStream : Nat → Bool) :
    List String → Nat → AppState → AppState
  | [], _, app => app
  | f :: rest, i, app =>
    if monStream i then
      processFilesLoop oracle monStream rest (i + 1) (processFile (oracle i) f app)
    else app

/-- `DownloadMonitorGUI.process_folder` (lines 315-328). -/
def processFolder (fs : FS) (oracle : Nat → Env) (monStream : Nat → Bool)
    (folder : String) (app : AppState) : AppState :=
  let files := (selectWeb (fs.listdir folder)).map (joinPath folder)
  let app1 := addLog app (.foundFiles files.length)
  let app2 := processFilesLoop oracle monStream files 0 app1
  addLog app2 .cleanupCompleted

/-- `DownloadMonitorGUI.manual_cleanup` (lines 263-269), after a folder has
been chosen in the dialog: log the start line and run `process_folder`. -/
def manualCleanup (fs : FS) (oracle : Nat → Env) (monStream : Nat → Bool)
    (folder : String) (app : AppState) : AppState :=
  processFolder fs oracle monStream folder (addLog app (.manualCleanupStarted folder))

/-- Line 367: the trigger list `['.html', '.htm', '.css', '.js']` of
`FileHandler.on_created`. -/
def triggerExts : List String := [".html", ".htm", ".css", ".js"]

/-- A watchdog filesystem creation event. -/
structure FEvent where
  is_directory : Bool
  src_path : String
  deriving Repr, DecidableEq

/-- Result of one `on_created` callback: the updated registry, the path
dispatched to a processing thread (if any), and the log lines emitted. -/
structure OnCreatedResult where
  handler : HandlerState
  dispatched : Option String
  logs : List LogMsg
  deriving Repr, DecidableEq

/-- `FileHandler.on_created` (lines 359-376): ignore directories; compute
`os.path.splitext(file_path)[1].lower()`; if it is a web extension and the
path is not yet in `processed_files`, add it, log, and (after the settle
sleep) dispatch the path to `process_file` on a fresh thread. -/
def on_created (hs : HandlerState) (ev : FEvent) : OnCreatedResult :=
  if ev.is_directory then ⟨hs, none, []⟩
  else
    let fp := ev.src_path
    let ext := pyLower (splitextExt fp)
    if triggerExts.contains ext then
      if hs.processed_files.contains fp then ⟨hs, none, []⟩
      else ⟨⟨fp :: hs.processed_files⟩, some fp, [.newFileDetected (basename fp)]⟩
    else ⟨hs, none, []⟩

/-- Deliver one creation event to the application: run the handler callback
and, when a path is dispatched, run `process_file` for it.  With no live
handler (not monitoring) the event is not delivered. -/
def appOnCreated (env : Env) (ev : FEvent) (app : AppState) : AppState :=
  match app.handler with
  | none => app
  | some hs =>
    let r := on_created hs ev
    let app1 := { app with handler := some r.handler, log := app.log ++ r.logs }
    match r.dispatched with
    | some p => processFile env p app1
    | none => app1

/-- `DownloadMonitorGUI.start_monitoring` (lines 221-249): if
`os.path.exists(self.watch_folder)` fails, show an error and return with
nothing changed; otherwise (missing-script warnings and settings save
elided as display/persistence collaborators) set `monitoring`, flip the
status to Active, build a fresh `FileHandler` (empty registry) and schedule
the observer on the watch folder with `recursive=False`. -/
def start_monitoring (fs : FS) (app : AppState) : AppState :=
  if !(fs.existsPath app.watch_folder) then app
  else
    { app with
      monitoring := true
      status := .active
      subscription := some (app.watch_folder, false)
      handler := some ⟨[]⟩
      log := app.log ++ [.startedMonitoring app.watch_folder] }

/-- `DownloadMonitorGUI.stop_monitoring` (lines 251-261): clear the flag,
stop and join the observer (so no further events are delivered), return
the status label to Idle. -/
def stop_monitoring (app : AppState) : AppState :=
  { app with
    monitoring := false
    status := .idle
    subscription := none
    handler := none
    log := app.log ++ [.monitoringStopped] }

/-- One externally-triggered operation on the application. -/
inductive Op where
  | procFile (env : Env) (fp : String)
  | fsEvent (env : Env) (ev : FEvent)
  | startMon (fs : FS)
  | stopMon
  | cleanup (fs : FS) (oracle : Nat → Env) (monStream : Nat → Bool) (folder : String)

/-- Apply one operation. -/
def step (op : Op) (app : AppState) : AppState :=
  match op with
  | .procFile env fp => processFile env fp app
  | .fsEvent env ev => appOnCreated env ev app
  | .startMon fs => start_monitoring fs app
  | .stopMon => stop_monitoring app
  | .cleanup fs oracle monStream folder => manualCleanup fs oracle monStream folder app

/-- Run a sequence of operations. -/
def runOps : AppState → List Op → AppState
  | app, [] => app
  | app, op :: rest => runOps (step op app) rest

/-- `DownloadMonitorGUI.__init__` (lines 38-53): all counters zero, not
monitoring, no observer; the three configured paths come from defaults or
the loaded settings. -/
def initApp (wf png dup : String) : AppState :=
  { monitoring := false
    status := .idle
    subscription := none
    handler := none
    watch_folder := wf
    pngify_script := png
    duplicate_script := dup
    stats := ⟨0, 0, 0, 0⟩
    log := []
    calls := [] }

/-- Pointwise sum of two statistics records. -/
def statsAdd (a b : Stats) : Stats :=
  ⟨a.files_processed + b.files_processed,
   a.images_extracted + b.images_extracted,
   a.duplicates_removed + b.duplicates_removed,
   a.space_saved + b.space_saved⟩

/-- The statistics contribution of one `process_file` run, by the branch
taken (proved equal to the actual stats change in `processFile_stats`). -/
def fileDelta (png dup : String) (env : Env) (fp : String) : Stats :=
  if env.fs.existsPath png then
    match env.runPngify with
    | .ok _ =>
      if env.fs.existsPath (outputFolder fp) then
        let n := countImages (env.fs.listdir (outputFolder fp))
        if env.fs.existsPath dup then
          match env.runDup with
          | .ok _ => ⟨1, n, 1, 0⟩
          | _ => ⟨0, n, 0, 0⟩
        else ⟨1, n, 0, 0⟩
      else ⟨1, 0, 0, 0⟩
    | _ => ⟨0, 0, 0, 0⟩
  else ⟨1, 0, 0, 0⟩

/-- The subprocess invocations performed by one `process_file` run. -/
def callsDelta (png dup : String) (env : Env) (fp : String) : List String :=
  if env.fs.existsPath png then
    match env.runPngify with
    | .ok _ =>
      if env.fs.existsPath (outputFolder fp) then
        if env.fs.existsPath dup then [png, dup] else [png]
      else [png]
    | _ => [png]
  else []

/-- The log lines produced by one `process_file` run. -/
def logDelta (png dup : String) (env : Env) (fp : String) : List LogMsg :=
  let b := basename fp
  if env.fs.existsPath png then
    match env.runPngify with
    | .ok _ =>
      if env.fs.existsPath (outputFolder fp) then
        let n := countImages (env.fs.listdir (outputFolder fp))
        if env.fs.existsPath dup then
          match env.runDup with
          | .ok _ => [.processing b, .extracting, .extracted n,
                      .removingDuplicates, .duplicatesRemoved, .completed b]
          | _ => [.processing b, .extracting, .extracted n,
                  .removingDuplicates, .errorProcessing b]
        else [.processing b, .extracting, .extracted n, .completed b]
      else [.processing b, .extracting, .completed b]
    | _ => [.processing b, .extracting, .errorProcessing b]
  else [.processing b, .completed b]

/-- Whether one `process_file` run raises inside the `try` block: a raised
subprocess outcome in stage 1, or in stage 2 when it is reached. -/
def raisesEx (png dup : String) (env : Env) (fp : String) : Bool :=
  env.fs.existsPath png &&
    (!(match env.runPngify with | .ok _ => true | _ => false) ||
      (env.fs.existsPath (outputFolder fp) && env.fs.existsPath dup &&
        !(match env.runDup with | .ok _ => true | _ => false)))

/-- Pointwise order on statistics records. -/
def Stats.le (a b : Stats) : Prop :=
  a.files_processed ≤ b.files_processed ∧
  a.images_extracted ≤ b.images_extracted ∧
  a.duplicates_removed ≤ b.duplicates_removed ∧
  a.space_saved ≤ b.space_saved

/-- Whether a creation event is one that `on_created` accepts for path `p`
when `p` is not yet registered: a non-directory event for `p` whose
lower-cased `splitext` extension is a trigger extension. -/
def qualB (p : String) (ev : FEvent) : Bool :=
  !ev.is_directory && ev.src_path == p &&
    triggerExts.contains (pyLower (splitextExt ev.src_path))

/-- Deliver a list of creation events to one `FileHandler`, returning the
final registry and the list of paths dispatched for processing. -/
def runEvents : HandlerState → List FEvent → HandlerState × List String
  | hs, [] => (hs, [])
  | hs, ev :: rest =>
    let r := on_created hs ev
    let rest' := runEvents r.handler rest
    (rest'.1, r.dispatched.toList ++ rest'.2)

/-- How many files the `process_folder` loop processes before the first
iteration that observes `monitoring = False`, starting at index `i`. -/
def runCount (monStream : Nat → Bool) : Nat → List String → Nat
  | _, [] => 0
  | i, _ :: rest => if monStream i then runCount monStream (i + 1) rest + 1 else 0

/-- Process every listed file in order (the loop body with no break). -/
def runAll (oracle : Nat → Env) : List String → Nat → AppState → AppState
  | [], _, app => app
  | f :: rest, i, app => runAll oracle rest (i + 1) (processFile (oracle i) f app)

/-- Fixture: filesystem where only the image-extractor script exists. -/
def fsC1 : FS := ⟨fun p => p == "png.ps1", fun _ => false, fun _ => []⟩

/-- Fixture: the extractor invocation raises `TimeoutExpired`. -/
def envC1 : Env := ⟨fsC1, .timeout, .ok 0⟩

/-- Fixture: fresh application configured with both scripts. -/
def appC1 : AppState := initApp "dl" "png.ps1" "dup.ps1"

/-- Fixture: one qualifying creation event. -/
def evA : FEvent := ⟨false, "dl/a.html"⟩

/-- Fixture: filesystem where the watch folder exists and is a directory. -/
def fsC2 : FS := ⟨fun p => p == "dl", fun p => p == "dl", fun _ => []⟩

/-- Fixture: fresh application watching `dl`. -/
def appC2 : AppState := initApp "dl" "" ""

/-- Fixture: extractor present and the `_images` output folder present with
two qualifying image entries out of three. -/
def fsW3 : FS :=
  ⟨fun p => p == "png.ps1" || p == "dl/index_images",
   fun p => p == "dl/index_images",
   fun p => if p == "dl/index_images" then ["a.png", "b.txt", "c.jpg"] else []⟩

/-- Fixture: both invocations complete normally. -/
def envW3 : Env := ⟨fsW3, .ok 0, .ok 0⟩

/-- Fixture: fresh application, extractor configured, no remover. -/
def appW3 : AppState := initApp "dl" "png.ps1" ""

/-- Fixture: the remover script and the output folder exist, but not the
extractor script. -/
def fsW4 : FS :=
  ⟨fun p => p == "dup.ps1" || p == "dl/index_images",
   fun p => p == "dl/index_images",
   fun p => if p == "dl/index_images" then ["a.png"] else []⟩

/-- Fixture: both invocations would complete normally if attempted. -/
def envW4 : Env := ⟨fsW4, .ok 0, .ok 0⟩

/-- Fixture: fresh application with both script paths configured. -/
def appW4 : AppState := initApp "dl" "png.ps1" "dup.ps1"

/-- Fixture: output folder and remover script exist; extractor absent. -/
def fsC5 : FS :=
  ⟨fun p => p == "dl/index_images" || p == "dup.ps1",
   fun p => p == "dl/index_images",
   fun p => if p == "dl/index_images" then ["a.png", "b.png"] else []⟩

/-- Fixture: both invocations would complete normally if attempted. -/
def envC5 : Env := ⟨fsC5, .ok 0, .ok 0⟩

/-- Fixture: fresh application with both script paths configured. -/
def appC5 : AppState := initApp "dl" "png.ps1" "dup.ps1"

/-- Fixture: extractor, remover and output folder all exist. -/
def fsW5 : FS :=
  ⟨fun p => p == "png.ps1" || p == "dup.ps1" || p == "dl/index_images",
   fun p => p == "dl/index_images",
   fun p => if p == "dl/index_images" then ["a.png", "b.jpg"] else []⟩

/-- Fixture: the remover completes with a nonzero exit status. -/
def envW5 : Env := ⟨fsW5, .ok 0, .ok 2⟩

/-- Fixture: fresh application with both script paths configured. -/
def appW5 : AppState := initApp "dl" "png.ps1" "dup.ps1"

/-- Fixture: the watch path exists but is a regular file, not a directory. -/
def fsC7 : FS := ⟨fun p => p == "notes.txt", fun _ => false, fun _ => []⟩

/-- Fixture: fresh application watching the regular file `notes.txt`. -/
def appC7 : AppState := initApp "notes.txt" "" ""

/-- Fixture: the watch directory exists. -/
def fsW7 : FS := ⟨fun p => p == "dl", fun p => p == "dl", fun _ => []⟩

/-- Fixture: nothing exists on this filesystem. -/
def fsN7 : FS := ⟨fun _ => false, fun _ => false, fun _ => []⟩

/-- Fixture: fresh application watching `dl`. -/
def appW7 : AppState := initApp "dl" "" ""

/-- Fixture: a qualifying creation event with an upper-case extension. -/
def evW8 : FEvent := ⟨false, "dl/page.HTML"⟩

/-- Fixture: a directory creation event. -/
def evW8dir : FEvent := ⟨true, "dl/newdir"⟩

/-- Fixture: a scan folder holding two qualifying web files and one other. -/
def fsW9 : FS :=
  ⟨fun p => p == "scan" || p == "png.ps1",
   fun p => p == "scan",
   fun p => if p == "scan" then ["a.html", "b.js", "notes.txt"] else []⟩

/-- Fixture: invocations complete normally. -/
def envW9 : Env := ⟨fsW9, .ok 0, .ok 0⟩

/-- Fixture: fresh application, not monitoring. -/
def appW9 : AppState := initApp "dl" "png.ps1" ""

/-- Fixture: every concurrent read of `self.monitoring` observes `False`. -/
def offStream : Nat → Bool := fun _ => false

theorem processFile_stats (env : Env) (fp : String) (app : AppState) :
    (processFile env fp app).stats
      = statsAdd app.stats (fileDelta app.pngify_script app.duplicate_script env fp) := by
  unfold processFile fileDelta
  cases hp : env.fs.existsPath app.pngify_script <;>
    cases hr : env.runPngify <;>
      cases ho : env.fs.existsPath (outputFolder fp) <;>
        cases hd : env.fs.existsPath app.duplicate_script <;>
          cases hq : env.runDup <;>
            simp [addLog, addCall, finishFile, statsAdd, hp, hr, ho, hd, hq]

theorem processFile_calls (env : Env) (fp : String) (app : AppState) :
    (processFile env fp app).calls
      = app.calls ++ callsDelta app.pngify_script app.duplicate_script env fp := by
  unfold processFile callsDelta
  cases hp : env.fs.existsPath app.pngify_script <;>
    cases hr : env.runPngify <;>
      cases ho : env.fs.existsPath (outputFolder fp) <;>
        cases hd : env.fs.existsPath app.duplicate_script <;>
          cases hq : env.runDup <;>
            simp [addLog, addCall, finishFile, hp, hr, ho, hd, hq]

theorem processFile_log (env : Env) (fp : String) (app : AppState) :
    (processFile env fp app).log
      = app.log ++ logDelta app.pngify_script app.duplicate_script env fp := by
  unfold processFile logDelta
  cases hp : env.fs.existsPath app.pngify_script <;>
    cases hr : env.runPngify <;>
      cases ho : env.fs.existsPath (outputFolder fp) <;>
        cases hd : env.fs.existsPath app.duplicate_script <;>
          cases hq : env.runDup <;>
            simp [addLog, addCall, finishFile, hp, hr, ho, hd, hq]

theorem Stats.le_refl (a : Stats) : Stats.le a a :=
  ⟨Nat.le_refl _, Nat.le_refl _, Nat.le_refl _, Nat.le_refl _⟩

theorem Stats.le_trans {a b c : Stats} (h1 : Stats.le a b) (h2 : Stats.le b c) :
    Stats.le a c :=
  ⟨Nat.le_trans h1.1 h2.1, Nat.le_trans h1.2.1 h2.2.1,
   Nat.le_trans h1.2.2.1 h2.2.2.1, Nat.le_trans h1.2.2.2 h2.2.2.2⟩

theorem statsAdd_le (a d : Stats) : Stats.le a (statsAdd a d) :=
  ⟨Nat.le_add_right _ _, Nat.le_add_right _ _,
   Nat.le_add_right _ _, Nat.le_add_right _ _⟩

theorem processFile_le (env : Env) (fp : String) (app : AppState) :
    Stats.le app.stats (processFile env fp app).stats := by
  rw [processFile_stats]
  exact statsAdd_le _ _

theorem appOnCreated_le (env : Env) (ev : FEvent) (app : AppState) :
    Stats.le app.stats (appOnCreated env ev app).stats := by
  unfold appOnCreated
  cases hh : app.handler with
  | none => exact Stats.le_refl _
  | some hs =>
    cases hd : (on_created hs ev).dispatched with
    | none => simp only [hd]; exact Stats.le_refl _
    | some p =>
      simp only [hd]
      exact processFile_le env p { app with
        handler := some (on_created hs ev).handler,
        log := app.log ++ (on_created hs ev).logs }

theorem processFilesLoop_le (oracle : Nat → Env) (monStream : Nat → Bool) :
    ∀ (files : List String) (i : Nat) (app : AppState),
      Stats.le app.stats (processFilesLoop oracle monStream files i app).stats := by
  intro files
  induction files with
  | nil => intro i app; exact Stats.le_refl _
  | cons f rest ih =>
    intro i app
    unfold processFilesLoop
    cases h : monStream i with
    | true =>
      simp only [if_pos rfl]
      exact Stats.le_trans (processFile_le (oracle i) f app) (ih (i + 1) _)
    | false => simp only [Bool.false_eq_true, if_neg]; exact Stats.le_refl _

theorem processFolder_le (fs : FS) (oracle : Nat → Env) (monStream : Nat → Bool)
    (folder : String) (app : AppState) :
    Stats.le app.stats (processFolder fs oracle monStream folder app).stats := by
  unfold processFolder
  exact processFilesLoop_le oracle monStream _ 0 (addLog app _)

theorem start_monitoring_stats (fs : FS) (app : AppState) :
    (start_monitoring fs app).stats = app.stats := by
  unfold start_monitoring
  split <;> rfl

theorem stop_monitoring_stats (app : AppState) :
    (stop_monitoring app).stats = app.stats := rfl

theorem step_le (op : Op) (app : AppState) :
    Stats.le app.stats (step op app).stats := by
  cases op with
  | procFile env fp => exact processFile_le env fp app
  | fsEvent env ev => exact appOnCreated_le env ev app
  | startMon fs => rw [step, start_monitoring_stats]; exact Stats.le_refl _
  | stopMon => rw [step, stop_monitoring_stats]; exact Stats.le_refl _
  | cleanup fs oracle monStream folder =>
    simp only [step, manualCleanup]
    exact processFolder_le fs oracle monStream folder (addLog app (.manualCleanupStarted folder))

theorem runOps_le (ops : List Op) : ∀ app : AppState,
    Stats.le app.stats (runOps app ops).stats := by
  induction ops with
  | nil => intro app; exact Stats.le_refl _
  | cons op rest ih =>
    intro app
    exact Stats.le_trans (step_le op app) (ih (step op app))

theorem fileDelta_space (png dup : String) (env : Env) (fp : String) :
    (fileDelta png dup env fp).space_saved = 0 := by
  unfold fileDelta
  cases hp : env.fs.existsPath png <;> cases hr : env.runPngify <;>
    cases ho : env.fs.existsPath (outputFolder fp) <;>
      cases hd : env.fs.existsPath dup <;> cases hq : env.runDup <;>
        simp [hp, hr, ho, hd, hq]

theorem processFile_space (env : Env) (fp : String) (app : AppState) :
    (processFile env fp app).stats.space_saved = app.stats.space_saved := by
  rw [processFile_stats]
  simp [statsAdd, fileDelta_space]

theorem appOnCreated_space (env : Env) (ev : FEvent) (app : AppState) :
    (appOnCreated env ev app).stats.space_saved = app.stats.space_saved := by
  unfold appOnCreated
  cases hh : app.handler with
  | none => rfl
  | some hs =>
    cases hd : (on_created hs ev).dispatched with
    | none => simp only [hd]
    | some p =>
      simp only [hd]
      exact processFile_space env p { app with
        handler := some (on_created hs ev).handler,
        log := app.log ++ (on_created hs ev).logs }

theorem processFilesLoop_space (oracle : Nat → Env) (monStream : Nat → Bool) :
    ∀ (files : List String) (i : Nat) (app : AppState),
      (processFilesLoop oracle monStream files i app).stats.space_saved
        = app.stats.space_saved := by
  intro files
  induction files with
  | nil => intro i app; rfl
  | cons f rest ih =>
    intro i app
    unfold processFilesLoop
    by_cases h : monStream i = true
    · rw [if_pos h, ih (i + 1) _, processFile_space]
    · rw [if_neg h]

theorem addLog_stats (app : AppState) (m : LogMsg) : (addLog app m).stats = app.stats := rfl

theorem processFolder_space (fs : FS) (oracle : Nat → Env) (monStream : Nat → Bool)
    (folder : String) (app : AppState) :
    (processFolder fs oracle monStream folder app).stats.space_saved
      = app.stats.space_saved := by
  simp only [processFolder, addLog_stats, processFilesLoop_space]

theorem step_space (op : Op) (app : AppState) :
    (step op app).stats.space_saved = app.stats.space_saved := by
  cases op with
  | procFile env fp => exact processFile_space env fp app
  | fsEvent env ev => exact appOnCreated_space env ev app
  | startMon fs => rw [step, start_monitoring_stats]
  | stopMon => rfl
  | cleanup fs oracle monStream folder =>
    simp only [step, manualCleanup]
    exact processFolder_space fs oracle monStream folder (addLog app (.manualCleanupStarted folder))

theorem runOps_space (ops : List Op) : ∀ app : AppState,
    (runOps app ops).stats.space_saved = app.stats.space_saved := by
  induction ops with
  | nil => intro app; rfl
  | cons op rest ih =>
    intro app
    rw [runOps, ih (step op app), step_space]

theorem runEvents_count (p : String) :
    ∀ (evs : List FEvent) (hs : HandlerState),
      ((runEvents hs evs).2.count p)
        = if hs.processed_files.contains p then 0
          else if evs.any (qualB p) then 1 else 0 := by
  intro evs
  induction evs with
  | nil => intro hs; simp [runEvents]
  | cons ev rest ih =>
    intro hs
    unfold runEvents
    by_cases hdir : ev.is_directory = true
    · simp [on_created, hdir, qualB, ih hs]
    · by_cases hext : pyLower (splitextExt ev.src_path) ∈ triggerExts
      · by_cases hmem : ev.src_path ∈ hs.processed_files
        · by_cases hsp : ev.src_path = p
          · have hpmem : p ∈ hs.processed_files := hsp ▸ hmem
            simp [on_created, hdir, hext, hmem, qualB, ih hs, hpmem]
          · simp [on_created, hdir, hext, hmem, qualB, ih hs, hsp]
        · by_cases hsp : ev.src_path = p
          · subst hsp
            simp [on_created, hdir, hext, hmem, qualB, ih, List.count_cons]
          · simp [on_created, hdir, hext, hmem, qualB, ih, List.count_cons,
                  hsp, Ne.symm hsp]
      · simp [on_created, hdir, hext, qualB, ih hs]

theorem processFilesLoop_take (oracle : Nat → Env) (monStream : Nat → Bool) :
    ∀ (files : List String) (i : Nat) (app : AppState),
      processFilesLoop oracle monStream files i app
        = runAll oracle (files.take (runCount monStream i files)) i app := by
  intro files
  induction files with
  | nil => intro i app; rfl
  | cons f rest ih =>
    intro i app
    unfold processFilesLoop runCount
    by_cases h : monStream i = true
    · simp only [if_pos h, List.take_succ_cons, runAll]
      exact ih (i + 1) _
    · simp only [if_neg h, List.take_zero]
      rfl

theorem runCount_mon (monStream : Nat → Bool) :
    ∀ (files : List String) (i j : Nat),
      j < runCount monStream i files → monStream (i + j) = true := by
  intro files
  induction files with
  | nil => intro i j h; simp [runCount] at h
  | cons f rest ih =>
    intro i j h
    unfold runCount at h
    by_cases hm : monStream i = true
    · rw [if_pos hm] at h
      cases j with
      | zero => simpa using hm
      | succ k =>
        have hk : i + (k + 1) = (i + 1) + k := by omega
        rw [hk]
        exact ih (i + 1) k (by omega)
    · rw [if_neg hm] at h
      omega

theorem processFolder_monitoring_off (fs : FS) (oracle : Nat → Env)
    (monStream : Nat → Bool) (folder : String) (app : AppState)
    (h : monStream 0 = false) :
    (processFolder fs oracle monStream folder app).stats = app.stats
    ∧ (processFolder fs oracle monStream folder app).log
        = app.log ++ [.foundFiles (selectWeb (fs.listdir folder)).length,
                      .cleanupCompleted] := by
  have hloop : ∀ (l : List String) (a : AppState),
      processFilesLoop oracle monStream l 0 a = a := by
    intro l a
    cases l with
    | nil => rfl
    | cons f rest =>
      unfold processFilesLoop
      rw [if_neg (by simp [h])]
  constructor
  · simp [processFolder, hloop, addLog]
  · simp [processFolder, hloop, addLog, List.length_map]

/-- C1: an exception raised while orchestrating stages 2-3 (extractor or
remover launch failure or timeout) is caught by `process_file`'s handler
and recorded as an error log line, and the call always returns normally;
but the remainder of the run is skipped, so `files_processed` grows by 1
exactly when no exception arises and by 0 when one does. -/
theorem pipeline_error_containment (env : Env) (fp : String) (app : AppState) :
    (processFile env fp app).stats.files_processed
      = app.stats.files_processed
        + (if raisesEx app.pngify_script app.duplicate_script env fp then 0 else 1)
    ∧ (processFile env fp app).log.getLast?
      = some (if raisesEx app.pngify_script app.duplicate_script env fp
              then LogMsg.errorProcessing (basename fp)
              else LogMsg.completed (basename fp)) := by
  constructor
  · rw [processFile_stats]
    unfold statsAdd fileDelta raisesEx
    cases hp : env.fs.existsPath app.pngify_script <;>
      cases hr : env.runPngify <;>
        cases ho : env.fs.existsPath (outputFolder fp) <;>
          cases hd : env.fs.existsPath app.duplicate_script <;>
            cases hq : env.runDup <;> simp [hp, hr, ho, hd, hq]
  · rw [processFile_log]
    unfold logDelta raisesEx
    cases hp : env.fs.existsPath app.pngify_script <;>
      cases hr : env.runPngify <;>
        cases ho : env.fs.existsPath (outputFolder fp) <;>
          cases hd : env.fs.existsPath app.duplicate_script <;>
            cases hq : env.runDup <;>
              simp [hp, hr, ho, hd, hq, List.getLast?_append]

/-- C1 counterexample: with the extractor script present and its invocation
timing out, `process_file` catches the error but does not increment
`files_processed` (it stays 0) and the run ends in an error log line, not
in completion — refuting the claim that `files_processed` increases by
exactly 1 regardless of stage failures. -/
theorem pipeline_error_drops_count_cex :
    envC1.fs.existsPath appC1.pngify_script = true
    ∧ envC1.runPngify = RunOutcome.timeout
    ∧ appC1.stats.files_processed = 0
    ∧ (processFile envC1 "dl/index.html" appC1).stats.files_processed = 0
    ∧ (processFile envC1 "dl/index.html" appC1).log.getLast?
        = some (LogMsg.errorProcessing "index.html") := by
  refine ⟨?_, ?_, ?_, ?_, ?_⟩ <;> decide

/-- C2: delivered creation events dispatch each path at most once per
handler lifetime: starting from the fresh (empty) registry, the number of
dispatches for a path `p` is 1 if some delivered event qualifies for `p`
(non-directory, matching extension) and 0 otherwise; and a successful
`start_monitoring` installs a fresh handler with an empty registry, so a
restarted session can accept `p` again. -/
theorem dedupe_accept_once :
    (∀ (evs : List FEvent) (p : String),
        ((runEvents ⟨[]⟩ evs).2.count p)
          = if evs.any (qualB p) then 1 else 0)
    ∧ (∀ (fs : FS) (app : AppState),
        fs.existsPath app.watch_folder = true →
          (start_monitoring fs app).handler = some ⟨[]⟩) := by
  constructor
  · intro evs p
    rw [runEvents_count p evs ⟨[]⟩]
    simp
  · intro fs app h
    simp [start_monitoring, h]

/-- C2 witness: two identical creation events for `dl/a.html` dispatch the
path exactly once, and starting monitoring on an existing folder installs
an empty registry. -/
theorem dedupe_accept_once_witness :
    ((runEvents ⟨[]⟩ [evA, evA]).2.count "dl/a.html") = 1
    ∧ (start_monitoring fsC2 appC2).handler = some ⟨[]⟩ := by
  constructor
  · rw [dedupe_accept_once.1 [evA, evA] "dl/a.html"]
    decide
  · exact dedupe_accept_once.2 fsC2 appC2 rfl

/-- C3: when the extractor target exists and its invocation completes with
any exit status, `images_extracted` grows by the count of entries of the
sibling `<stem>_images` folder matching the image suffixes if that folder
exists; if it does not exist, `images_extracted` and `duplicates_removed`
are unchanged and the duplicate-removal stage is never invoked. -/
theorem images_counted_by_inspection (env : Env) (fp : String) (app : AppState)
    (e : Int) (hpng : env.fs.existsPath app.pngify_script = true)
    (hrun : env.runPngify = .ok e) :
    (env.fs.existsPath (outputFolder fp) = true →
        (processFile env fp app).stats.images_extracted
          = app.stats.images_extracted
            + countImages (env.fs.listdir (outputFolder fp)))
    ∧ (env.fs.existsPath (outputFolder fp) = false →
        (processFile env fp app).stats.images_extracted
            = app.stats.images_extracted
        ∧ (processFile env fp app).stats.duplicates_removed
            = app.stats.duplicates_removed
        ∧ (processFile env fp app).calls = app.calls ++ [app.pngify_script]) := by
  constructor
  · intro ho
    rw [processFile_stats]
    unfold statsAdd fileDelta
    cases hd : env.fs.existsPath app.duplicate_script <;>
      cases hq : env.runDup <;> simp [hpng, hrun, ho, hd, hq]
  · intro ho
    refine ⟨?_, ?_, ?_⟩
    · rw [processFile_stats]; unfold statsAdd fileDelta; simp [hpng, hrun, ho]
    · rw [processFile_stats]; unfold statsAdd fileDelta; simp [hpng, hrun, ho]
    · rw [processFile_calls]; unfold callsDelta; simp [hpng, hrun, ho]

/-- C3 witness: with the extractor present, invocation completed, and the
output folder holding entries `a.png`, `b.txt`, `c.jpg`, exactly 2 images
are counted into the statistics. -/
theorem images_counted_by_inspection_witness :
    envW3.fs.existsPath appW3.pngify_script = true
    ∧ envW3.fs.existsPath (outputFolder "dl/index.html") = true
    ∧ countImages (envW3.fs.listdir (outputFolder "dl/index.html")) = 2
    ∧ (processFile envW3 "dl/index.html" appW3).stats.images_extracted
        = appW3.stats.images_extracted
          + countImages (envW3.fs.listdir (outputFolder "dl/index.html")) := by
  refine ⟨by decide, by decide, by decide, ?_⟩
  exact (images_counted_by_inspection envW3 "dl/index.html" appW3 0
    (by decide) rfl).1 (by decide)

/-- C4: when the extractor target does not exist, stage 1 is skipped with
no subprocess invoked and no failure logged, the run completes normally
with only `files_processed` incremented, and the duplicate-removal stage is
never attempted even if its own target exists (the environment is
arbitrary, so in particular the remover may exist). -/
theorem extractor_absent_skips_stages (env : Env) (fp : String) (app : AppState)
    (hpng : env.fs.existsPath app.pngify_script = false) :
    (processFile env fp app).stats
      = { app.stats with files_processed := app.stats.files_processed + 1 }
    ∧ (processFile env fp app).calls = app.calls
    ∧ (processFile env fp app).log
        = app.log ++ [.processing (basename fp), .completed (basename fp)] := by
  refine ⟨?_, ?_, ?_⟩
  · rw [processFile_stats]
    unfold statsAdd fileDelta
    simp [hpng]
  · rw [processFile_calls]
    unfold callsDelta
    simp [hpng]
  · rw [processFile_log]
    unfold logDelta
    simp [hpng]

/-- C4 witness: extractor absent while the remover script and even the
output folder exist — no subprocess runs, statistics only gain the
processed-file count. -/
theorem extractor_absent_skips_stages_witness :
    envW4.fs.existsPath appW4.pngify_script = false
    ∧ envW4.fs.existsPath appW4.duplicate_script = true
    ∧ envW4.fs.existsPath (outputFolder "dl/index.html") = true
    ∧ (processFile envW4 "dl/index.html" appW4).calls = []
    ∧ (processFile envW4 "dl/index.html" appW4).stats = ⟨1, 0, 0, 0⟩ := by
  have h := extractor_absent_skips_stages envW4 "dl/index.html" appW4 (by decide)
  refine ⟨by decide, by decide, by decide, ?_, ?_⟩
  · rw [h.2.1]; rfl
  · rw [h.1]; rfl

/-- C5 counterexample: the `<stem>_images` output folder and the
duplicate-remover target both exist, yet because the extractor target is
absent the remover is never invoked and `duplicates_removed` stays 0 —
refuting the claim that those two conditions alone guarantee one
deduplication pass. -/
theorem dup_stage_requires_extractor_cex :
    envC5.fs.existsPath (outputFolder "dl/index.html") = true
    ∧ envC5.fs.existsPath appC5.duplicate_script = true
    ∧ envC5.fs.existsPath appC5.pngify_script = false
    ∧ (processFile envC5 "dl/index.html" appC5).stats.duplicates_removed = 0
    ∧ (processFile envC5 "dl/index.html" appC5).calls = [] := by
  refine ⟨?_, ?_, ?_, ?_, ?_⟩ <;> decide

/-- C5 (amended): when additionally the extractor target exists and both
invocations complete (any exit statuses), the remover is invoked exactly
once and `duplicates_removed` grows by exactly 1, regardless of either
exit status and of how many images were counted. -/
theorem dup_stage_single_pass (env : Env) (fp : String) (app : AppState)
    (e1 e2 : Int) (hpng : env.fs.existsPath app.pngify_script = true)
    (h1 : env.runPngify = .ok e1)
    (hout : env.fs.existsPath (outputFolder fp) = true)
    (hdup : env.fs.existsPath app.duplicate_script = true)
    (h2 : env.runDup = .ok e2) :
    (processFile env fp app).stats.duplicates_removed
        = app.stats.duplicates_removed + 1
    ∧ (processFile env fp app).calls
        = app.calls ++ [app.pngify_script, app.duplicate_script] := by
  constructor
  · rw [processFile_stats]
    unfold statsAdd fileDelta
    simp [hpng, h1, hout, hdup, h2]
  · rw [processFile_calls]
    unfold callsDelta
    simp [hpng, h1, hout, hdup, h2]

/-- C5 witness: extractor and remover present, output folder with two
images, remover exiting with status 2 — one remover invocation, one
deduplication counted. -/
theorem dup_stage_single_pass_witness :
    (processFile envW5 "dl/index.html" appW5).stats.duplicates_removed = 1
    ∧ (processFile envW5 "dl/index.html" appW5).calls = ["png.ps1", "dup.ps1"] := by
  have h := dup_stage_single_pass envW5 "dl/index.html" appW5 0 2
    (by decide) rfl (by decide) (by decide) rfl
  constructor
  · rw [h.1]; rfl
  · rw [h.2]; rfl

/-- C6: statistics are monotonically non-decreasing over any sequence of
operations (watch events, per-file runs, batch scans, start/stop), and each
`process_file` run adds a delta independent of the current counters, so
re-processing the same path only accumulates counts. -/
theorem stats_monotone_additive :
    (∀ (app : AppState) (ops : List Op),
        Stats.le app.stats (runOps app ops).stats)
    ∧ (∀ (env : Env) (fp : String) (app : AppState),
        (processFile env fp app).stats
          = statsAdd app.stats
              (fileDelta app.pngify_script app.duplicate_script env fp)) :=
  ⟨fun app ops => runOps_le ops app,
   fun env fp app => processFile_stats env fp app⟩

/-- C7 counterexample: the configured watch path exists but is not a
directory, yet `start_monitoring` still succeeds — monitoring turns on and
a (non-recursive) subscription is created — refuting the claim that
watch-start fails whenever the path is not a directory. -/
theorem start_accepts_nondirectory_cex :
    fsC7.existsPath appC7.watch_folder = true
    ∧ fsC7.isDir appC7.watch_folder = false
    ∧ appC7.status = Status.idle
    ∧ (start_monitoring fsC7 appC7).status = Status.active
    ∧ (start_monitoring fsC7 appC7).monitoring = true
    ∧ (start_monitoring fsC7 appC7).subscription = some ("notes.txt", false) := by
  refine ⟨?_, ?_, ?_, ?_, ?_, ?_⟩ <;> decide

/-- C7 (amended): `start_monitoring` fails fast — leaving the application
state completely unchanged, hence Idle with no subscription — exactly when
`os.path.exists` is false on the watch path; otherwise it transitions to
Active and subscribes non-recursively.  Being a directory is not checked. -/
theorem start_validation_existence_only (fs : FS) (app : AppState) :
    (fs.existsPath app.watch_folder = false → start_monitoring fs app = app)
    ∧ (fs.existsPath app.watch_folder = true →
        (start_monitoring fs app).monitoring = true
        ∧ (start_monitoring fs app).status = Status.active
        ∧ (start_monitoring fs app).subscription
            = some (app.watch_folder, false)) := by
  constructor
  · intro h
    simp [start_monitoring, h]
  · intro h
    simp [start_monitoring, h]

/-- C7 witness: a missing watch path leaves the state unchanged; an
existing directory flips the watcher to Active with a non-recursive
subscription. -/
theorem start_validation_existence_only_witness :
    start_monitoring fsN7 appW7 = appW7
    ∧ (start_monitoring fsW7 appW7).monitoring = true
    ∧ (start_monitoring fsW7 appW7).status = Status.active
    ∧ (start_monitoring fsW7 appW7).subscription = some ("dl", false) := by
  have h1 := (start_validation_existence_only fsN7 appW7).1 rfl
  have h2 := (start_validation_existence_only fsW7 appW7).2 rfl
  exact ⟨h1, h2.1, h2.2.1, h2.2.2⟩

/-- C8: `on_created` ignores directory events; for a non-directory event
whose path is not yet registered, it dispatches exactly when the path's
lower-cased `splitext` extension is one of `.html`, `.htm`, `.css`, `.js`;
and the batch scanner filters directory entries by the same extension list
(lower-cased suffix match). -/
theorem creation_event_extension_filter (hs : HandlerState) (ev : FEvent) :
    (ev.is_directory = true → on_created hs ev = ⟨hs, none, []⟩)
    ∧ (ev.is_directory = false →
        hs.processed_files.contains ev.src_path = false →
          ((on_created hs ev).dispatched = some ev.src_path
            ↔ triggerExts.contains (pyLower (splitextExt ev.src_path)) = true))
    ∧ (∀ entries : List String,
        selectWeb entries
          = entries.filter
              (fun f => triggerExts.any (fun e => pyEndswith (pyLower f) e))) := by
  refine ⟨?_, ?_, ?_⟩
  · intro h
    simp [on_created, h]
  · intro hdir hmem
    have hmem' : ev.src_path ∉ hs.processed_files := by simpa using hmem
    constructor
    · intro hdisp
      by_cases hext : pyLower (splitextExt ev.src_path) ∈ triggerExts
      · simpa using hext
      · simp [on_created, hdir, hext] at hdisp
    · intro hext
      have hext' : pyLower (splitextExt ev.src_path) ∈ triggerExts := by
        simpa using hext
      simp [on_created, hdir, hext', hmem']
  · intro entries
    rfl

/-- C8 witness: a creation event for `dl/page.HTML` (upper-case extension,
fresh path) is dispatched, and a directory creation event is ignored. -/
theorem creation_event_extension_filter_witness :
    (on_created ⟨[]⟩ evW8).dispatched = some "dl/page.HTML"
    ∧ on_created ⟨[]⟩ evW8dir = ⟨⟨[]⟩, none, []⟩ := by
  constructor
  · exact ((creation_event_extension_filter ⟨[]⟩ evW8).2.1 rfl rfl).mpr (by decide)
  · exact (creation_event_extension_filter ⟨[]⟩ evW8dir).1 rfl

/-- C9: the batch-scan loop processes exactly the longest prefix of the
listed files along which every per-file read of `self.monitoring` is true
(so a file is processed only if the flag is true at its turn), and when the
flag is false at the first check the scan processes zero files and leaves
the statistics unchanged, while still logging the found-files count and
the completion line. -/
theorem batch_scan_monitoring_gate :
    (∀ (oracle : Nat → Env) (monStream : Nat → Bool) (files : List String)
        (i : Nat) (app : AppState),
        processFilesLoop oracle monStream files i app
          = runAll oracle (files.take (runCount monStream i files)) i app
        ∧ (∀ j, j < runCount monStream i files → monStream (i + j) = true))
    ∧ (∀ (fs : FS) (oracle : Nat → Env) (monStream : Nat → Bool)
        (folder : String) (app : AppState), monStream 0 = false →
        (processFolder fs oracle monStream folder app).stats = app.stats
        ∧ (processFolder fs oracle monStream folder app).log
            = app.log ++ [.foundFiles (selectWeb (fs.listdir folder)).length,
                          .cleanupCompleted]) := by
  constructor
  · intro oracle monStream files i app
    exact ⟨processFilesLoop_take oracle monStream files i app,
           fun j hj => runCount_mon monStream files i j hj⟩
  · intro fs oracle monStream folder app h
    exact processFolder_monitoring_off fs oracle monStream folder app h

/-- C9 witness: a scan of a folder holding two qualifying web files, with
monitoring off throughout, processes nothing, changes no statistics, and
logs the found count and completion. -/
theorem batch_scan_monitoring_gate_witness :
    (selectWeb (fsW9.listdir "scan")).length = 2
    ∧ (processFolder fsW9 (fun _ => envW9) offStream "scan" appW9).stats
        = appW9.stats
    ∧ (processFolder fsW9 (fun _ => envW9) offStream "scan" appW9).log
        = appW9.log ++ [LogMsg.foundFiles 2, LogMsg.cleanupCompleted] := by
  have h := batch_scan_monitoring_gate.2 fsW9 (fun _ => envW9) offStream
    "scan" appW9 rfl
  refine ⟨by decide, h.1, ?_⟩
  rw [h.2]
  decide

/-- C10: no operation writes `space_saved`: it is preserved by every
operation sequence, starts at 0 in the initial state, and therefore stays
0 for the whole process lifetime. -/
theorem space_saved_never_written :
    (∀ (app : AppState) (ops : List Op),
        (runOps app ops).stats.space_saved = app.stats.space_saved)
    ∧ (∀ wf png dup : String, (initApp wf png dup).stats.space_saved = 0)
    ∧ (∀ (wf png dup : String) (ops : List Op),
        (runOps (initApp wf png dup) ops).stats.space_saved = 0) :=
  ⟨fun app ops => runOps_space ops app,
   fun _ _ _ => rfl,
   fun wf png dup ops => by
     rw [runOps_space ops (initApp wf png dup)]
     rfl⟩

end Gui
